import Mathlib

/-!
Shallow embedding of the superagent orchestration core, for checking the
specification's claims about it.

Embedded components:
* `TaskDecomposer` (src/packages/agents/src/core/TaskDecomposer.ts):
  subtask readiness (`getNextSubtasks`) and status aggregation
  (`updateSubtaskStatus`).
* the standalone `ResourceManager`
  (src/packages/agents/src/core/ResourceManager.ts), namespace `RM`.
* the `ResourceManager` class nested in GodNode.ts
  (src/packages/agents/src/core/GodNode.ts), namespace `GN`.
* GodNode's `SystemMetrics` event handlers (GodNode.ts).
* `EvolutionManager` / `DefaultEvolutionStrategy` (core/EvolutionManager.ts).
* `AgentOrchestrator.destroyAgent` (core/AgentOrchestrator.ts).

TypeScript numbers are modelled as `Int` where the code only adds and
subtracts (resource counters) and as `Rat` where it divides (metrics).
Fallible methods return `Except String`; `async` is irrelevant to the
claims (all relevant code is sequential) and is dropped.
-/

namespace Superagent

/-- Status enum shared by Task and SubTask
(`'pending' | 'in_progress' | 'completed' | 'failed'`). -/
inductive Status where
  | pending
  | in_progress
  | completed
  | failed
deriving DecidableEq, Repr

/-- Structure `SubTask` from TaskDecomposer.ts: id, description, requiredCapabilities,
dependencies (ids of sibling subtasks), status, optional result.
The TS `result?: any` is modelled as `Option String`. -/
structure SubTask where
  id : String
  description : String
  requiredCapabilities : List String
  dependencies : List String
  status : Status
  result : Option String
deriving DecidableEq, Repr

/-- Structure `Task` from TaskDecomposer.ts. -/
structure Task where
  id : String
  description : String
  subtasks : List SubTask
  status : Status
deriving DecidableEq, Repr

/-- The dependency check inside `getNextSubtasks`:
`task.subtasks.find((st) => st.id === depId)?.status === 'completed'`.
`find` returns the first sibling with the given id; a dangling id
compares `undefined === 'completed'`, i.e. false. -/
def depCompleted (t : Task) (depId : String) : Bool :=
  match t.subtasks.find? (fun s => decide (s.id = depId)) with
  | some dep => decide (dep.status = .completed)
  | none => false

/-- Method `TaskDecomposer.getNextSubtasks`: filter the subtasks that are
`pending` and all of whose listed dependencies are `completed`. -/
def getNextSubtasks (t : Task) : List SubTask :=
  t.subtasks.filter (fun st =>
    decide (st.status = .pending) && st.dependencies.all (depCompleted t))

/-- Replace the first element satisfying `p` by `f` of it, leaving the
rest of the list alone. This is what the TS code's mutation of the
subtask object returned by `Array.prototype.find` amounts to. -/
def updateFirst (p : SubTask → Bool) (f : SubTask → SubTask) :
    List SubTask → List SubTask
  | [] => []
  | st :: rest =>
    if p st then f st :: rest else st :: updateFirst p f rest

/-- The body of `if (result !== undefined) subtask.result = result`. -/
def setResult (st : SubTask) (status : Status) (result : Option String) :
    SubTask :=
  { st with
    status := status
    result := match result with
              | some r => some r
              | none => st.result }

/-- The overall-status recomputation at the end of
`TaskDecomposer.updateSubtaskStatus`: all completed → completed; else any
failed → failed; else any in_progress → in_progress; else the task's
status field is left as it was. -/
def aggregateStatus (subtasks : List SubTask) (prev : Status) : Status :=
  if subtasks.all (fun st => decide (st.status = .completed)) then
    .completed
  else if subtasks.any (fun st => decide (st.status = .failed)) then
    .failed
  else if subtasks.any (fun st => decide (st.status = .in_progress)) then
    .in_progress
  else
    prev

/-- Method `TaskDecomposer.updateSubtaskStatus`: find the subtask by id (throw
`Subtask <id> not found` if absent — modelled as `Except.error`), set its
status/result, then recompute the overall task status. -/
def updateSubtaskStatus (task : Task) (subtaskId : String) (status : Status)
    (result : Option String) : Except String Task :=
  match task.subtasks.find? (fun st => decide (st.id = subtaskId)) with
  | none => .error ("Subtask " ++ subtaskId ++ " not found")
  | some _ =>
    let subtasks :=
      updateFirst (fun st => decide (st.id = subtaskId))
        (fun st => setResult st status result) task.subtasks
    .ok { task with
          subtasks := subtasks
          status := aggregateStatus subtasks task.status }

/-- Records `ResourceUsage` / `ResourceRequirements`:
`{tokens, computeUnits, memory, storage}`. TypeScript numbers modelled as
`Int` (the code only adds, subtracts and compares them). -/
structure Usage where
  tokens : Int
  computeUnits : Int
  memory : Int
  storage : Int
deriving DecidableEq, Repr

namespace Usage

/-- The all-zero usage record (initial `currentUsage`). -/
def zero : Usage := ⟨0, 0, 0, 0⟩

/-- Componentwise sum. -/
def add (a b : Usage) : Usage :=
  ⟨a.tokens + b.tokens, a.computeUnits + b.computeUnits,
   a.memory + b.memory, a.storage + b.storage⟩

/-- Componentwise difference (no clamping). -/
def sub (a b : Usage) : Usage :=
  ⟨a.tokens - b.tokens, a.computeUnits - b.computeUnits,
   a.memory - b.memory, a.storage - b.storage⟩

/-- Componentwise difference clamped at zero
(`Math.max(0, this.resources[key] - value)` on each key). -/
def clampSub (a b : Usage) : Usage :=
  ⟨max 0 (a.tokens - b.tokens), max 0 (a.computeUnits - b.computeUnits),
   max 0 (a.memory - b.memory), max 0 (a.storage - b.storage)⟩

/-- Componentwise order on usage records. -/
def le (a b : Usage) : Prop :=
  a.tokens ≤ b.tokens ∧ a.computeUnits ≤ b.computeUnits ∧
  a.memory ≤ b.memory ∧ a.storage ≤ b.storage

instance (a b : Usage) : Decidable (a.le b) := by
  unfold Usage.le
  infer_instance

end Usage

namespace RM

/-- State of the standalone `ResourceManager`
(src/packages/agents/src/core/ResourceManager.ts): `currentUsage` and
`maxResources`. -/
structure State where
  currentUsage : Usage
  maxResources : Usage
deriving DecidableEq, Repr

/-- The constructor's initial state, parameterised on the limits (the
source hard-codes `{tokens: 1000000, computeUnits: 1000, memory: 2^30,
storage: 100 * 2^20}`). -/
def init (limits : Usage) : State :=
  { currentUsage := Usage.zero, maxResources := limits }

/-- The limits hard-coded in the `ResourceManager` constructor. -/
def defaultLimits : Usage :=
  ⟨1000000, 1000, 1024 * 1024 * 1024, 1024 * 1024 * 100⟩

/-- Method `ResourceManager.allocateResources`: if on any of the four dimensions
`currentUsage[d] + requirements[d] > maxResources[d]`, return `false` and
leave usage unchanged; otherwise increment all four dimensions and return
`true`. -/
def allocateResources (req : Usage) (s : State) : Bool × State :=
  if (s.currentUsage.add req).le s.maxResources then
    (true, { s with currentUsage := s.currentUsage.add req })
  else
    (false, s)

/-- Method `ResourceManager.releaseResources`: unconditionally subtract each
dimension (the source has no clamping here). -/
def releaseResources (req : Usage) (s : State) : State :=
  { s with currentUsage := s.currentUsage.sub req }

end RM

namespace GN

/-- State of the `ResourceManager` class nested in GodNode.ts:
`resources` (current usage) and `limits`. -/
structure State where
  resources : Usage
  limits : Usage
deriving DecidableEq, Repr

/-- Initial state (usage all zero), parameterised on the limits (the
source initialises `{tokens: 1000000, computeUnits: 100, memory: 2^30,
storage: 10 * 2^30}`). -/
def init (limits : Usage) : State :=
  { resources := Usage.zero, limits := limits }

/-- The limits hard-coded in GodNode.ts's `ResourceManager`. -/
def defaultLimits : Usage :=
  ⟨1000000, 100, 1024 * 1024 * 1024, 1024 * 1024 * 1024 * 10⟩

/-- GodNode.ts `ResourceManager.allocateResources`, embedded for a call
that supplies all four keys: the first loop returns `false` as soon as a
dimension would exceed its limit (usage untouched); only when every
dimension passes does the second loop add all four amounts. -/
def allocateResources (req : Usage) (s : State) : Bool × State :=
  if (s.resources.add req).le s.limits then
    (true, { s with resources := s.resources.add req })
  else
    (false, s)

/-- GodNode.ts `ResourceManager.releaseResources`, embedded for a call
that supplies all four keys: each dimension becomes
`Math.max(0, resources[key] - value)`. -/
def releaseResources (req : Usage) (s : State) : State :=
  { s with resources := s.resources.clampSub req }

end GN

/-- One call in an allocate/release sequence against a resource pool. -/
inductive Op where
  | alloc (req : Usage)
  | release (req : Usage)
deriving DecidableEq, Repr

/-- The requirements record carried by an operation. -/
def Op.req : Op → Usage
  | .alloc r => r
  | .release r => r

/-- Every operation in the sequence carries non-negative requirements
(the data model declares requirements to be non-negative integers). -/
def OpsNonneg (ops : List Op) : Prop :=
  ∀ op ∈ ops, Usage.zero.le op.req

instance (ops : List Op) : Decidable (OpsNonneg ops) := by
  unfold OpsNonneg
  infer_instance

/-- Run a sequence of calls against the standalone `ResourceManager`. -/
def RM.run (s : RM.State) : List Op → RM.State
  | [] => s
  | .alloc r :: rest => RM.run (RM.allocateResources r s).2 rest
  | .release r :: rest => RM.run (RM.releaseResources r s) rest

/-- Run a sequence of calls against GodNode.ts's `ResourceManager`. -/
def GN.run (s : GN.State) : List Op → GN.State
  | [] => s
  | .alloc r :: rest => GN.run (GN.allocateResources r s).2 rest
  | .release r :: rest => GN.run (GN.releaseResources r s) rest

/-- The slice of GodNode's `SystemMetrics` the claims are about:
`totalTasks` and the rolling `successRate` (a TS float, modelled as
`Rat`). -/
structure SystemMetrics where
  totalTasks : Nat
  successRate : Rat
deriving DecidableEq, Repr

/-- The metrics as initialised in the GodNode constructor:
`totalTasks: 0, successRate: 1.0`. -/
def initialMetrics : SystemMetrics := { totalTasks := 0, successRate := 1 }

/-- Handler `GodNode.handleTaskCompletion`: `totalTasks++` and
`successRate = (successRate * 9 + 1) / 10`. -/
def handleTaskCompletion (m : SystemMetrics) : SystemMetrics :=
  { totalTasks := m.totalTasks + 1
    successRate := (m.successRate * 9 + 1) / 10 }

/-- Handler `GodNode.handleTaskFailure`: `totalTasks++` and
`successRate = (successRate * 9) / 10`. -/
def handleTaskFailure (m : SystemMetrics) : SystemMetrics :=
  { totalTasks := m.totalTasks + 1
    successRate := m.successRate * 9 / 10 }

/-- The slice of `AgentMetrics` the evolution thresholds read:
`successRate`, `averageResponseTime`, `userSatisfaction` (TS floats,
modelled as `Rat`). -/
structure AgentMetrics where
  successRate : Rat
  averageResponseTime : Rat
  userSatisfaction : Rat
deriving DecidableEq, Repr

/-- The slice of `AgentState` read by the evolution pipeline. -/
structure AgentState where
  metrics : AgentMetrics
deriving DecidableEq, Repr

/-- A `BaseAgent` as seen by the evolution pipeline and the
orchestrator's active-agent map. -/
structure BaseAgent where
  id : String
  state : AgentState
deriving DecidableEq, Repr

/-- Method `BaseAgent.getState`. -/
def BaseAgent.getState (a : BaseAgent) : AgentState := a.state

/-- Structure `EvolutionResult` from EvolutionManager.ts. -/
structure EvolutionResult where
  success : Bool
  improvements : List String
  newCapabilities : List String
  error : Option String
deriving DecidableEq, Repr

/-- An `EvolutionStrategy`: its `shouldEvolve` predicate and its `evolve`
hook. `evolve` may mutate the agent or throw, so it is modelled as
`BaseAgent → Except String BaseAgent`. -/
structure EvolutionStrategy where
  name : String
  shouldEvolve : AgentMetrics → Bool
  evolve : BaseAgent → Except String BaseAgent

/-- Predicate `DefaultEvolutionStrategy.shouldEvolve`:
`successRate < 0.8 || userSatisfaction < 0.7`
(note: `averageResponseTime` is not consulted here). -/
def DefaultEvolutionStrategy.shouldEvolve (m : AgentMetrics) : Bool :=
  decide (m.successRate < 0.8) || decide (m.userSatisfaction < 0.7)

/-- The pre-registered default strategy. Its `evolve` applies only
placeholder improvement hooks (all empty method bodies), so the agent
comes back unchanged and nothing throws. -/
def defaultStrategy : EvolutionStrategy :=
  { name := "default"
    shouldEvolve := DefaultEvolutionStrategy.shouldEvolve
    evolve := fun a => .ok a }

/-- The strategy registry after `registerDefaultStrategies` (a `Map`
keyed by strategy name, modelled as a lookup function). -/
def defaultStrategies : String → Option EvolutionStrategy :=
  fun n => if n = "default" then some defaultStrategy else none

/-- Method `EvolutionManager.analyzeAgentPerformance`: flag each metric that is
past its fixed threshold. -/
def analyzeAgentPerformance (agent : BaseAgent) : List String :=
  (if agent.getState.metrics.successRate < 0.8 then
    ["Task success rate below threshold"] else []) ++
  (if agent.getState.metrics.averageResponseTime > 2000 then
    ["Response time too high"] else []) ++
  (if agent.getState.metrics.userSatisfaction < 0.7 then
    ["User satisfaction below threshold"] else [])

/-- The improvement/new-capability lists of an evolution plan. -/
structure EvolutionPlan where
  improvements : List String
  newCapabilities : List String
deriving DecidableEq, Repr

/-- The fixed plan: `generateEvolutionPlan` ignores the model response
and returns exactly this plan. -/
def fixedPlan : EvolutionPlan :=
  { improvements :=
      ["Implement better error handling", "Optimize resource usage"]
    newCapabilities :=
      ["Advanced error recovery", "Resource optimization"] }

/-- Method `EvolutionManager.generateEvolutionPlan`: the external
`openai.chat.completions.create` call may throw (modelled by the `llm`
oracle); on success the parsed plan is the fixed one from the source. -/
def generateEvolutionPlan (llm : Except String Unit) :
    Except String EvolutionPlan :=
  match llm with
  | .ok _ => .ok fixedPlan
  | .error e => .error e

/-- Method `EvolutionManager.verifyEvolution`: placeholder, always `true`. -/
def verifyEvolution : Bool := true

/-- A single quote character, for the source's error-message text. -/
def quoteChar : String := String.singleton (Char.ofNat 39)

/-- The `try` block of `EvolutionManager.evolveAgent`: look up the
strategy (throwing if absent), return a no-op success result when
`shouldEvolve` is false, otherwise analyze performance, generate the
plan (external call may throw), apply `strategy.evolve` (may throw or
mutate the agent), verify, and return the structured success result.
The returned pair carries the agent as left by the pipeline. -/
def evolveAgentBody (strategies : String → Option EvolutionStrategy)
    (agent : BaseAgent) (strategyName : String)
    (llm : Except String Unit) :
    Except String (EvolutionResult × BaseAgent) :=
  match strategies strategyName with
  | none =>
    .error ("Evolution strategy " ++ quoteChar ++ strategyName ++
      quoteChar ++ " not found")
  | some strategy =>
    if strategy.shouldEvolve agent.getState.metrics then
      let _improvements := analyzeAgentPerformance agent
      match generateEvolutionPlan llm with
      | .error e => .error e
      | .ok evolutionPlan =>
        match strategy.evolve agent with
        | .error e => .error e
        | .ok evolvedAgent =>
          let _verified := verifyEvolution
          .ok ({ success := true
                 improvements := evolutionPlan.improvements
                 newCapabilities := evolutionPlan.newCapabilities
                 error := none }, evolvedAgent)
    else
      .ok ({ success := true
             improvements := []
             newCapabilities := []
             error := none }, agent)

/-- Method `EvolutionManager.evolveAgent`: the whole body runs inside
`try ... catch`, so the method always returns an `EvolutionResult`
(never raises); any pipeline exception becomes
`{success: false, improvements: [], newCapabilities: [], error: msg}`
and the agent is whatever it was when the exception was raised (no
pipeline step before `strategy.evolve` touches it). -/
def evolveAgent (strategies : String → Option EvolutionStrategy)
    (agent : BaseAgent) (strategyName : String)
    (llm : Except String Unit) : EvolutionResult × BaseAgent :=
  match evolveAgentBody strategies agent strategyName llm with
  | .ok r => r
  | .error e =>
    ({ success := false
       improvements := []
       newCapabilities := []
       error := some e }, agent)

/-- The orchestrator events relevant to the claims. -/
inductive OrchEvent where
  | agent_destroyed (agentId : String)
deriving DecidableEq, Repr

namespace AgentOrchestrator

/-- The orchestrator's `activeAgents: Map<string, BaseAgent>`, modelled
as a lookup function (JS `Map` keys are unique). -/
abbrev AgentMap : Type := String → Option BaseAgent

/-- Method `AgentOrchestrator.destroyAgent`: look the id up in `activeAgents`;
if present, delete the entry and emit `agent_destroyed`; if absent, do
nothing (no error, no event). Returns the updated map and the list of
events emitted by the call. -/
def destroyAgent (agentId : String) (activeAgents : AgentMap) :
    AgentMap × List OrchEvent :=
  match activeAgents agentId with
  | some _ =>
    (fun k => if k = agentId then none else activeAgents k,
     [OrchEvent.agent_destroyed agentId])
  | none => (activeAgents, [])

end AgentOrchestrator

/-! ### Concrete fixtures used by witnesses and examples -/

/-- Subtask A of the readiness scenario: no dependencies, pending. -/
def subA : SubTask := ⟨"a", "step A", [], [], .pending, none⟩

/-- Subtask B of the readiness scenario: depends on A, pending. -/
def subB : SubTask := ⟨"b", "step B", [], ["a"], .pending, none⟩

/-- Subtask C of the readiness scenario: depends on A and B, pending. -/
def subC : SubTask := ⟨"c", "step C", [], ["a", "b"], .pending, none⟩

/-- A after completion. -/
def subAc : SubTask := { subA with status := .completed }

/-- B after completion. -/
def subBc : SubTask := { subB with status := .completed }

/-- The scenario task with A, B, C all pending. -/
def taskABC0 : Task := ⟨"t1", "demo task", [subA, subB, subC], .pending⟩

/-- The scenario task after A was completed. -/
def taskABC1 : Task := ⟨"t1", "demo task", [subAc, subB, subC], .pending⟩

/-- The scenario task after B (only) was completed. -/
def taskABC1b : Task := ⟨"t1", "demo task", [subA, subBc, subC], .pending⟩

/-- The scenario task after both A and B were completed. -/
def taskABC2 : Task := ⟨"t1", "demo task", [subAc, subBc, subC], .pending⟩

/-- A fresh two-subtask task, both subtasks pending. -/
def pendTask : Task :=
  ⟨"t2", "retry demo",
   [⟨"a", "step A", [], [], .pending, none⟩,
    ⟨"b", "step B", [], [], .pending, none⟩], .pending⟩

/-- State of `pendTask` after its subtask `a` failed (overall status `failed`). -/
def failedTask : Task :=
  ⟨"t2", "retry demo",
   [⟨"a", "step A", [], [], .failed, none⟩,
    ⟨"b", "step B", [], [], .pending, none⟩], .failed⟩

/-- State of `failedTask` after subtask `a` was retried and completed: no subtask
is failed or in progress any more, yet the overall status stays
`failed`. -/
def failedTaskRetried : Task :=
  ⟨"t2", "retry demo",
   [⟨"a", "step A", [], [], .completed, none⟩,
    ⟨"b", "step B", [], [], .pending, none⟩], .failed⟩

/-- A task whose subtasks have statuses {completed, failed,
in_progress}. -/
def mixTask : Task :=
  ⟨"t3", "mixed",
   [⟨"x", "done", [], [], .pending, none⟩,
    ⟨"y", "broken", [], [], .failed, none⟩,
    ⟨"z", "running", [], [], .in_progress, none⟩], .in_progress⟩

/-- State of `mixTask` after its subtask `x` was marked completed. -/
def mixTaskUpdated : Task :=
  ⟨"t3", "mixed",
   [⟨"x", "done", [], [], .completed, none⟩,
    ⟨"y", "broken", [], [], .failed, none⟩,
    ⟨"z", "running", [], [], .in_progress, none⟩], .failed⟩

/-- A healthy agent: successRate 0.95, averageResponseTime 500,
userSatisfaction 0.9 (all on the good side of the thresholds). -/
def demoAgent : BaseAgent := ⟨"agent-1", ⟨⟨0.95, 500, 0.9⟩⟩⟩

/-! ### Claims -/

/-- Claim C1: `allocate(requirements)` is all-or-nothing on both resource
pools: when every one of the four dimensions satisfies
`currentUsage[d] + requirements[d] <= limit[d]` the call returns `true`
and increments all four usage dimensions together; otherwise it returns
`false` and leaves every usage dimension unchanged. Stated for the
standalone `RM.allocateResources` and for GodNode's
`GN.allocateResources`. -/
theorem allocate_all_or_nothing :
    (∀ (s : RM.State) (req : Usage),
      ((s.currentUsage.tokens + req.tokens ≤ s.maxResources.tokens ∧
        s.currentUsage.computeUnits + req.computeUnits ≤
          s.maxResources.computeUnits ∧
        s.currentUsage.memory + req.memory ≤ s.maxResources.memory ∧
        s.currentUsage.storage + req.storage ≤ s.maxResources.storage) →
        RM.allocateResources req s =
          (true, { s with currentUsage := s.currentUsage.add req })) ∧
      (¬ (s.currentUsage.tokens + req.tokens ≤ s.maxResources.tokens ∧
          s.currentUsage.computeUnits + req.computeUnits ≤
            s.maxResources.computeUnits ∧
          s.currentUsage.memory + req.memory ≤ s.maxResources.memory ∧
          s.currentUsage.storage + req.storage ≤ s.maxResources.storage) →
        RM.allocateResources req s = (false, s))) ∧
    (∀ (s : GN.State) (req : Usage),
      ((s.resources.tokens + req.tokens ≤ s.limits.tokens ∧
        s.resources.computeUnits + req.computeUnits ≤
          s.limits.computeUnits ∧
        s.resources.memory + req.memory ≤ s.limits.memory ∧
        s.resources.storage + req.storage ≤ s.limits.storage) →
        GN.allocateResources req s =
          (true, { s with resources := s.resources.add req })) ∧
      (¬ (s.resources.tokens + req.tokens ≤ s.limits.tokens ∧
          s.resources.computeUnits + req.computeUnits ≤
            s.limits.computeUnits ∧
          s.resources.memory + req.memory ≤ s.limits.memory ∧
          s.resources.storage + req.storage ≤ s.limits.storage) →
        GN.allocateResources req s = (false, s))) := by
  constructor
  · intro s req
    constructor
    · intro h
      simp only [RM.allocateResources]
      rw [if_pos]
      exact h
    · intro h
      simp only [RM.allocateResources]
      rw [if_neg]
      exact h
  · intro s req
    constructor
    · intro h
      simp only [GN.allocateResources]
      rw [if_pos]
      exact h
    · intro h
      simp only [GN.allocateResources]
      rw [if_neg]
      exact h

/-- Witness for C1, following the spec's example: with limits
`{tokens: 1000}` (other dimensions 0) and usage 600, allocating 600
succeeds and allocating another 500 fails leaving usage at 600. -/
theorem allocate_all_or_nothing_witness :
    RM.allocateResources ⟨600, 0, 0, 0⟩ (RM.init ⟨1000, 0, 0, 0⟩) =
      (true, { RM.init ⟨1000, 0, 0, 0⟩ with
               currentUsage :=
                 (RM.init ⟨1000, 0, 0, 0⟩).currentUsage.add
                   ⟨600, 0, 0, 0⟩ }) ∧
    RM.allocateResources ⟨500, 0, 0, 0⟩
        ⟨⟨600, 0, 0, 0⟩, ⟨1000, 0, 0, 0⟩⟩ =
      (false, ⟨⟨600, 0, 0, 0⟩, ⟨1000, 0, 0, 0⟩⟩) :=
  ⟨((allocate_all_or_nothing.1 (RM.init ⟨1000, 0, 0, 0⟩)
      ⟨600, 0, 0, 0⟩).1 (by decide)),
   ((allocate_all_or_nothing.1 ⟨⟨600, 0, 0, 0⟩, ⟨1000, 0, 0, 0⟩⟩
      ⟨500, 0, 0, 0⟩).2 (by decide))⟩

/-- Claim C3, counterexample: the standalone
`ResourceManager.releaseResources` does *not* clamp at zero: releasing
`{tokens: 5, …}` from the freshly initialised pool (usage all zero)
leaves `currentUsage.tokens = -5`, not
`max(0, previous - released) = 0`. -/
theorem release_clamp_counterexample :
    (RM.releaseResources ⟨5, 5, 5, 5⟩
        (RM.init RM.defaultLimits)).currentUsage.tokens = -5 ∧
    (RM.releaseResources ⟨5, 5, 5, 5⟩
        (RM.init RM.defaultLimits)).currentUsage.tokens ≠
      max 0 ((RM.init RM.defaultLimits).currentUsage.tokens - 5) := by
  decide

/-- Claim C3, amended: GodNode's `releaseResources` clamps: each usage
dimension afterwards equals `max 0 (previous - released)`, so no GN
release can drive a usage counter negative. (The standalone
`RM.releaseResources` instead subtracts without clamping — see the
counterexample.) -/
theorem gn_release_clamps :
    ∀ (s : GN.State) (req : Usage),
      (GN.releaseResources req s).resources.tokens =
        max 0 (s.resources.tokens - req.tokens) ∧
      (GN.releaseResources req s).resources.computeUnits =
        max 0 (s.resources.computeUnits - req.computeUnits) ∧
      (GN.releaseResources req s).resources.memory =
        max 0 (s.resources.memory - req.memory) ∧
      (GN.releaseResources req s).resources.storage =
        max 0 (s.resources.storage - req.storage) ∧
      Usage.zero.le (GN.releaseResources req s).resources := by
  intro s req
  refine ⟨rfl, rfl, rfl, rfl, ?_⟩
  simp only [GN.releaseResources, Usage.clampSub, Usage.le, Usage.zero]
  omega

/-- Claim C6: `task_completed` / `task_failed` update the God Node metrics
by `totalTasks + 1` and `successRate = (successRate * 9 + outcome) / 10`
(outcome 1 on completion, 0 on failure); from the initial rate `1.0`,
three consecutive failures give rates 0.9, 0.81, 0.729 and
`totalTasks = 3`. -/
theorem rolling_success_rate :
    (∀ m : SystemMetrics,
      handleTaskCompletion m =
        { totalTasks := m.totalTasks + 1
          successRate := (m.successRate * 9 + 1) / 10 }) ∧
    (∀ m : SystemMetrics,
      handleTaskFailure m =
        { totalTasks := m.totalTasks + 1
          successRate := (m.successRate * 9 + 0) / 10 }) ∧
    (handleTaskFailure initialMetrics).successRate = 0.9 ∧
    (handleTaskFailure
      (handleTaskFailure initialMetrics)).successRate = 0.81 ∧
    (handleTaskFailure (handleTaskFailure
      (handleTaskFailure initialMetrics))).successRate = 0.729 ∧
    (handleTaskFailure (handleTaskFailure
      (handleTaskFailure initialMetrics))).totalTasks = 3 := by
  refine ⟨fun m => ?_, fun m => ?_, ?_, ?_, ?_, rfl⟩
  · simp [handleTaskCompletion]
  · simp [handleTaskFailure]
  · norm_num [handleTaskFailure, initialMetrics]
  · norm_num [handleTaskFailure, initialMetrics]
  · norm_num [handleTaskFailure, initialMetrics]

/-- Splitting a non-negativity assumption over a cons. -/
theorem opsNonneg_cons {op : Op} {ops : List Op}
    (h : OpsNonneg (op :: ops)) :
    Usage.zero.le op.req ∧ OpsNonneg ops :=
  ⟨h op (List.mem_cons_self op ops),
   fun o ho => h o (List.mem_cons_of_mem op ho)⟩

/-- Releasing a non-negative amount cannot raise usage above a bound it
already respected. -/
theorem Usage.sub_le_of_le {u m r : Usage} (h : u.le m)
    (hr : Usage.zero.le r) : (u.sub r).le m := by
  simp only [Usage.le, Usage.sub, Usage.zero] at *
  omega

/-- One step of the standalone manager preserves
`currentUsage ≤ maxResources` and never touches `maxResources`. -/
theorem RM.rm_step_preserves (op : Op) (s : RM.State)
    (h : s.currentUsage.le s.maxResources)
    (hop : Usage.zero.le op.req) :
    (RM.run s [op]).currentUsage.le (RM.run s [op]).maxResources ∧
    (RM.run s [op]).maxResources = s.maxResources := by
  cases op with
  | alloc r =>
    show (RM.allocateResources r s).2.currentUsage.le
        (RM.allocateResources r s).2.maxResources ∧
      (RM.allocateResources r s).2.maxResources = s.maxResources
    unfold RM.allocateResources
    split
    · next hc => exact ⟨hc, rfl⟩
    · exact ⟨h, rfl⟩
  | release r =>
    exact ⟨Usage.sub_le_of_le h hop, rfl⟩

/-- Any sequence of non-negative calls keeps the standalone manager's
usage below its limits. -/
theorem RM.rm_run_preserves (ops : List Op) :
    ∀ s : RM.State, s.currentUsage.le s.maxResources → OpsNonneg ops →
      (RM.run s ops).currentUsage.le (RM.run s ops).maxResources ∧
      (RM.run s ops).maxResources = s.maxResources := by
  induction ops with
  | nil => exact fun s h _ => ⟨h, rfl⟩
  | cons op rest ih =>
    intro s h hn
    obtain ⟨hop, hrest⟩ := opsNonneg_cons hn
    have hstep := RM.rm_step_preserves op s h hop
    cases op with
    | alloc r =>
      have hrec := ih _ hstep.1 hrest
      exact ⟨hrec.1, hrec.2.trans hstep.2⟩
    | release r =>
      have hrec := ih _ hstep.1 hrest
      exact ⟨hrec.1, hrec.2.trans hstep.2⟩

/-- One step of GodNode's manager keeps usage within `[0, limits]` and
never touches `limits`. -/
theorem GN.gn_step_preserves (op : Op) (s : GN.State)
    (h0 : Usage.zero.le s.resources) (h : s.resources.le s.limits)
    (hop : Usage.zero.le op.req) :
    (Usage.zero.le (GN.run s [op]).resources ∧
      (GN.run s [op]).resources.le (GN.run s [op]).limits) ∧
    (GN.run s [op]).limits = s.limits := by
  cases op with
  | alloc r =>
    show (Usage.zero.le (GN.allocateResources r s).2.resources ∧
        (GN.allocateResources r s).2.resources.le
          (GN.allocateResources r s).2.limits) ∧
      (GN.allocateResources r s).2.limits = s.limits
    unfold GN.allocateResources
    split
    · next hc =>
      refine ⟨⟨?_, hc⟩, rfl⟩
      simp only [Usage.le, Usage.add, Usage.zero, Op.req] at *
      omega
    · exact ⟨⟨h0, h⟩, rfl⟩
  | release r =>
    have e : GN.run s [Op.release r] = GN.releaseResources r s := rfl
    rw [e]
    refine ⟨⟨?_, ?_⟩, rfl⟩ <;>
      simp only [GN.releaseResources, Usage.clampSub, Usage.le,
        Usage.zero, Op.req] at * <;>
      omega

/-- Any sequence of non-negative calls keeps GodNode's pool usage within
`[0, limits]`. -/
theorem GN.gn_run_preserves (ops : List Op) :
    ∀ s : GN.State, Usage.zero.le s.resources → s.resources.le s.limits →
      OpsNonneg ops →
      (Usage.zero.le (GN.run s ops).resources ∧
        (GN.run s ops).resources.le (GN.run s ops).limits) ∧
      (GN.run s ops).limits = s.limits := by
  induction ops with
  | nil => exact fun s h0 h _ => ⟨⟨h0, h⟩, rfl⟩
  | cons op rest ih =>
    intro s h0 h hn
    obtain ⟨hop, hrest⟩ := opsNonneg_cons hn
    have hstep := GN.gn_step_preserves op s h0 h hop
    cases op with
    | alloc r =>
      have hrec := ih _ hstep.1.1 hstep.1.2 hrest
      exact ⟨hrec.1, hrec.2.trans hstep.2⟩
    | release r =>
      have hrec := ih _ hstep.1.1 hstep.1.2 hrest
      exact ⟨hrec.1, hrec.2.trans hstep.2⟩

/-- Claim C2: starting from zero usage, no sequence of
allocate/release calls with non-negative requirements ever pushes pool
usage above the limits (componentwise), on either pool — and on
GodNode's pool usage also never drops below zero; moreover a release
with the same requirements immediately after a successful allocate
restores the exact pre-allocation state (for GodNode's clamped release,
under the invariant `0 ≤ usage`, which every reachable state
satisfies). -/
theorem usage_bounded_and_release_restores :
    (∀ (limits : Usage) (ops : List Op),
      Usage.zero.le limits → OpsNonneg ops →
      (RM.run (RM.init limits) ops).currentUsage.le limits) ∧
    (∀ (s : RM.State) (req : Usage),
      (RM.allocateResources req s).1 = true →
      RM.releaseResources req (RM.allocateResources req s).2 = s) ∧
    (∀ (limits : Usage) (ops : List Op),
      Usage.zero.le limits → OpsNonneg ops →
      Usage.zero.le (GN.run (GN.init limits) ops).resources ∧
      (GN.run (GN.init limits) ops).resources.le limits) ∧
    (∀ (s : GN.State) (req : Usage),
      Usage.zero.le s.resources →
      (GN.allocateResources req s).1 = true →
      GN.releaseResources req (GN.allocateResources req s).2 = s) := by
  refine ⟨?_, ?_, ?_, ?_⟩
  · intro limits ops hl hn
    have h0 : (RM.init limits).currentUsage.le
        (RM.init limits).maxResources := hl
    have h := RM.rm_run_preserves ops (RM.init limits) h0 hn
    have h2 : (RM.run (RM.init limits) ops).maxResources = limits := h.2
    have h1 := h.1
    rw [h2] at h1
    exact h1
  · intro s req hsucc
    obtain ⟨⟨a, b, c, d⟩, m⟩ := s
    unfold RM.allocateResources at hsucc ⊢
    split at hsucc
    · next hc =>
      rw [if_pos hc]
      dsimp only
      simp only [RM.releaseResources, Usage.add, Usage.sub]
      simp only [RM.State.mk.injEq, Usage.mk.injEq, and_true]
      omega
    · simp at hsucc
  · intro limits ops hl hn
    have h := GN.gn_run_preserves ops (GN.init limits) (by
        simp only [GN.init, Usage.le, Usage.zero]
        omega) hl hn
    have h2 : (GN.run (GN.init limits) ops).limits = limits := h.2
    refine ⟨h.1.1, ?_⟩
    have h1 := h.1.2
    rw [h2] at h1
    exact h1
  · intro s req h0 hsucc
    obtain ⟨⟨a, b, c, d⟩, m⟩ := s
    simp only [Usage.le, Usage.zero] at h0
    unfold GN.allocateResources at hsucc ⊢
    split at hsucc
    · next hc =>
      rw [if_pos hc]
      dsimp only
      simp only [GN.releaseResources, Usage.add, Usage.clampSub]
      simp only [GN.State.mk.injEq, Usage.mk.injEq, and_true]
      omega
    · simp at hsucc

/-- Witness for C2: the spec's example sequence on limits
`{tokens: 1000}` — allocate 600, then a failing allocate 500, then
release 600 — stays within limits on both pools, and releasing a
successful allocation of `{tokens: 600}` returns both pools to their
initial states. -/
theorem usage_bounded_and_release_restores_witness :
    (RM.run (RM.init ⟨1000, 0, 0, 0⟩)
      [.alloc ⟨600, 0, 0, 0⟩, .alloc ⟨500, 0, 0, 0⟩,
       .release ⟨600, 0, 0, 0⟩]).currentUsage.le ⟨1000, 0, 0, 0⟩ ∧
    RM.releaseResources ⟨600, 0, 0, 0⟩
        (RM.allocateResources ⟨600, 0, 0, 0⟩
          (RM.init ⟨1000, 0, 0, 0⟩)).2 =
      RM.init ⟨1000, 0, 0, 0⟩ ∧
    Usage.zero.le (GN.run (GN.init ⟨1000, 0, 0, 0⟩)
      [.alloc ⟨600, 0, 0, 0⟩, .alloc ⟨500, 0, 0, 0⟩,
       .release ⟨600, 0, 0, 0⟩]).resources ∧
    GN.releaseResources ⟨600, 0, 0, 0⟩
        (GN.allocateResources ⟨600, 0, 0, 0⟩
          (GN.init ⟨1000, 0, 0, 0⟩)).2 =
      GN.init ⟨1000, 0, 0, 0⟩ :=
  ⟨usage_bounded_and_release_restores.1 ⟨1000, 0, 0, 0⟩ _
      (by decide) (by decide),
   usage_bounded_and_release_restores.2.1 (RM.init ⟨1000, 0, 0, 0⟩)
      ⟨600, 0, 0, 0⟩ (by decide),
   (usage_bounded_and_release_restores.2.2.1 ⟨1000, 0, 0, 0⟩ _
      (by decide) (by decide)).1,
   usage_bounded_and_release_restores.2.2.2 (GN.init ⟨1000, 0, 0, 0⟩)
      ⟨600, 0, 0, 0⟩ (by decide) (by decide)⟩

/-- Characterisation: `depCompleted` holds exactly when the dependency id resolves (via
`find`, i.e. first match) to a sibling whose status is `completed`. -/
theorem depCompleted_iff (t : Task) (d : String) :
    depCompleted t d = true ↔
      ∃ dep, t.subtasks.find? (fun s => decide (s.id = d)) = some dep ∧
        dep.status = .completed := by
  unfold depCompleted
  split
  · next dep heq => simp [heq]
  · next heq => simp [heq]

/-- Claim C4: `getNextSubtasks` returns exactly the subtasks that are
`pending` and whose every listed dependency id refers to a (first
matching) sibling with status `completed`; and on the concrete scenario
A (no deps), B (dep A), C (deps A and B): initially the frontier is
`[A]`, after completing A it is `[B]`, after completing A and B it is
`[C]` — with the same final state (hence the same frontier) whether A or
B is completed first. -/
theorem get_next_subtasks_ready :
    (∀ (t : Task) (st : SubTask),
      st ∈ getNextSubtasks t ↔
        st ∈ t.subtasks ∧ st.status = .pending ∧
        ∀ d ∈ st.dependencies, ∃ dep,
          t.subtasks.find? (fun s => decide (s.id = d)) = some dep ∧
          dep.status = .completed) ∧
    getNextSubtasks taskABC0 = [subA] ∧
    updateSubtaskStatus taskABC0 "a" .completed none = .ok taskABC1 ∧
    getNextSubtasks taskABC1 = [subB] ∧
    updateSubtaskStatus taskABC1 "b" .completed none = .ok taskABC2 ∧
    getNextSubtasks taskABC2 = [subC] ∧
    updateSubtaskStatus taskABC0 "b" .completed none = .ok taskABC1b ∧
    getNextSubtasks taskABC1b = [subA] ∧
    updateSubtaskStatus taskABC1b "a" .completed none = .ok taskABC2 := by
  refine ⟨?_, rfl, rfl, rfl, rfl, rfl, rfl, rfl, rfl⟩
  intro t st
  simp only [getNextSubtasks, List.mem_filter, Bool.and_eq_true,
    decide_eq_true_eq, List.all_eq_true, depCompleted_iff]

/-- Claim C5, counterexample: reached from a fresh all-pending task by
failing subtask `a` and then retrying it to completion: afterwards no
subtask is failed or in progress and not all are completed, yet the
overall status is `failed`, not `pending` — the fall-through branch of
`updateSubtaskStatus` keeps the previous task status instead of
resetting to `pending`. -/
theorem update_status_pending_counterexample :
    updateSubtaskStatus pendTask "a" .failed none = .ok failedTask ∧
    updateSubtaskStatus failedTask "a" .completed none =
      .ok failedTaskRetried ∧
    (failedTaskRetried.subtasks.all fun st =>
      decide (st.status = .completed)) = false ∧
    (failedTaskRetried.subtasks.any fun st =>
      decide (st.status = .failed)) = false ∧
    (failedTaskRetried.subtasks.any fun st =>
      decide (st.status = .in_progress)) = false ∧
    failedTaskRetried.status ≠ .pending :=
  ⟨rfl, rfl, rfl, rfl, rfl, by decide⟩

/-- Claim C5, amended: on every successful `updateSubtaskStatus` call the
returned task's status follows the precedence: all subtasks completed →
`completed`; else any failed → `failed` (failed outranks in_progress);
else any in_progress → `in_progress`; else the task's *previous* status
is kept (so a pending task stays `pending`, but a task that was, e.g.,
`failed` is not reset). -/
theorem update_status_precedence :
    ∀ (task : Task) (subtaskId : String) (status : Status)
      (result : Option String) (t : Task),
      updateSubtaskStatus task subtaskId status result = .ok t →
      ((t.subtasks.all fun st => decide (st.status = .completed)) = true →
        t.status = .completed) ∧
      ((t.subtasks.all fun st => decide (st.status = .completed)) = false →
        (t.subtasks.any fun st => decide (st.status = .failed)) = true →
        t.status = .failed) ∧
      ((t.subtasks.all fun st => decide (st.status = .completed)) = false →
        (t.subtasks.any fun st => decide (st.status = .failed)) = false →
        (t.subtasks.any fun st => decide (st.status = .in_progress)) =
          true →
        t.status = .in_progress) ∧
      ((t.subtasks.all fun st => decide (st.status = .completed)) = false →
        (t.subtasks.any fun st => decide (st.status = .failed)) = false →
        (t.subtasks.any fun st => decide (st.status = .in_progress)) =
          false →
        t.status = task.status) := by
  intro task subtaskId status result t h
  unfold updateSubtaskStatus at h
  split at h
  · exact absurd h (by simp)
  · injection h with h
    subst h
    dsimp only
    refine ⟨?_, ?_, ?_, ?_⟩
    · intro h1
      simp [aggregateStatus, h1]
    · intro h1 h2
      simp [aggregateStatus, h1, h2]
    · intro h1 h2 h3
      simp [aggregateStatus, h1, h2, h3]
    · intro h1 h2 h3
      simp [aggregateStatus, h1, h2, h3]

/-- Witness for C5 (amended): with subtask statuses
{completed, failed, in_progress} the aggregate status is `failed`. -/
theorem update_status_precedence_witness :
    updateSubtaskStatus mixTask "x" .completed none = .ok mixTaskUpdated ∧
    mixTaskUpdated.status = .failed :=
  ⟨rfl,
   (update_status_precedence mixTask "x" .completed none
     mixTaskUpdated rfl).2.1 rfl rfl⟩

/-- Claim C7: `evolveAgent` never lets a pipeline exception escape: it is
a total function into `EvolutionResult × BaseAgent` (so it cannot raise
in the embedding), and whenever its `try` body raises (`evolveAgentBody`
returns `.error e` — unknown strategy name, plan-generation failure, or
a throwing strategy hook), the caller receives the structured result
`{success: false, improvements: [], newCapabilities: [], error: e}` and
the agent reference the caller passed in. -/
theorem evolve_agent_catches :
    ∀ (strategies : String → Option EvolutionStrategy)
      (agent : BaseAgent) (strategyName : String)
      (llm : Except String Unit) (e : String),
      evolveAgentBody strategies agent strategyName llm = .error e →
      evolveAgent strategies agent strategyName llm =
        ({ success := false, improvements := [], newCapabilities := [],
           error := some e }, agent) := by
  intro strategies agent strategyName llm e h
  unfold evolveAgent
  rw [h]

/-- Witness for C7: asking for an unregistered strategy name yields the
structured failure result (and the untouched agent), not an exception. -/
theorem evolve_agent_catches_witness :
    evolveAgent defaultStrategies demoAgent "missing" (.ok ()) =
      ({ success := false, improvements := [], newCapabilities := [],
         error := some ("Evolution strategy " ++ quoteChar ++ "missing" ++
           quoteChar ++ " not found") }, demoAgent) :=
  evolve_agent_catches defaultStrategies demoAgent "missing" (.ok ()) _ rfl

/-- Claim C8: when the default strategy's `shouldEvolve` is false for the
agent's metrics, `evolveAgent` with the default strategy returns the
no-op success result — `success: true`, empty improvements and
newCapabilities — and the agent is returned unchanged, regardless of the
external plan-generation call's outcome (it is never reached). -/
theorem no_evolution_needed_noop :
    ∀ (agent : BaseAgent) (llm : Except String Unit),
      DefaultEvolutionStrategy.shouldEvolve agent.getState.metrics =
        false →
      evolveAgent defaultStrategies agent "default" llm =
        ({ success := true, improvements := [], newCapabilities := [],
           error := none }, agent) := by
  intro agent llm h
  simp [evolveAgent, evolveAgentBody, defaultStrategies,
    defaultStrategy, h]

/-- Witness for C8: an agent with successRate 0.95,
averageResponseTime 500 and userSatisfaction 0.9 is not evolved — the
no-op success result comes back even when the external plan-generation
call would have failed. -/
theorem no_evolution_needed_noop_witness :
    evolveAgent defaultStrategies demoAgent "default"
        (.error "provider down") =
      ({ success := true, improvements := [], newCapabilities := [],
         error := none }, demoAgent) :=
  no_evolution_needed_noop demoAgent (.error "provider down") (by
    simp only [DefaultEvolutionStrategy.shouldEvolve, demoAgent,
      BaseAgent.getState]
    norm_num)

/-- Claim C9: `destroyAgent(agentId)` on an id absent from `activeAgents`
is a silent no-op: no error (the function is total), no event, map
unchanged; and an `agent_destroyed` event is emitted iff the id was
present, in which case exactly that entry is removed (the id now maps to
nothing and every other id is untouched). -/
theorem destroy_agent_events :
    ∀ (m : AgentOrchestrator.AgentMap) (agentId : String),
      (m agentId = none →
        AgentOrchestrator.destroyAgent agentId m = (m, [])) ∧
      (∀ a, m agentId = some a →
        (AgentOrchestrator.destroyAgent agentId m).2 =
          [OrchEvent.agent_destroyed agentId] ∧
        (AgentOrchestrator.destroyAgent agentId m).1 agentId = none ∧
        ∀ k, k ≠ agentId →
          (AgentOrchestrator.destroyAgent agentId m).1 k = m k) ∧
      ((AgentOrchestrator.destroyAgent agentId m).2 ≠ [] ↔
        (m agentId).isSome) := by
  intro m agentId
  refine ⟨?_, ?_, ?_⟩
  · intro h
    unfold AgentOrchestrator.destroyAgent
    rw [h]
  · intro a h
    unfold AgentOrchestrator.destroyAgent
    rw [h]
    refine ⟨rfl, ?_, ?_⟩
    · dsimp only
      rw [if_pos rfl]
    · intro k hk
      dsimp only
      rw [if_neg hk]
  · cases h : m agentId <;>
      unfold AgentOrchestrator.destroyAgent <;>
      rw [h] <;> simp

/-- A one-agent map for the destroyAgent witness. -/
def demoMap : AgentOrchestrator.AgentMap :=
  fun k => if k = "agent-1" then some demoAgent else none

/-- Witness for C9: destroying an unknown id leaves the map and event
stream untouched; destroying a present id emits exactly one
`agent_destroyed` and removes the entry. -/
theorem destroy_agent_events_witness :
    AgentOrchestrator.destroyAgent "ghost" demoMap = (demoMap, []) ∧
    (AgentOrchestrator.destroyAgent "agent-1" demoMap).2 =
      [OrchEvent.agent_destroyed "agent-1"] ∧
    (AgentOrchestrator.destroyAgent "agent-1" demoMap).1 "agent-1" =
      none :=
  ⟨(destroy_agent_events demoMap "ghost").1 rfl,
   ((destroy_agent_events demoMap "agent-1").2.1 demoAgent rfl).1,
   ((destroy_agent_events demoMap "agent-1").2.1 demoAgent rfl).2.1⟩

/-- Claim C10: `updateSubtaskStatus` with a subtask id that matches no
subtask throws `Subtask <id> not found`. The throw happens before any
write, so the failed call modifies nothing: in the embedding the
`.error` branch carries no task at all and the input task is returned to
the caller exactly as it was. -/
theorem update_missing_subtask_error :
    ∀ (task : Task) (subtaskId : String) (status : Status)
      (result : Option String),
      task.subtasks.find? (fun st => decide (st.id = subtaskId)) = none →
      updateSubtaskStatus task subtaskId status result =
        .error ("Subtask " ++ subtaskId ++ " not found") := by
  intro task subtaskId status result h
  unfold updateSubtaskStatus
  rw [h]

/-- Witness for C10: the demo task has no subtask `zzz`, so updating it
errors with the `Subtask zzz not found` message. -/
theorem update_missing_subtask_error_witness :
    updateSubtaskStatus taskABC0 "zzz" .completed none =
      .error ("Subtask " ++ "zzz" ++ " not found") :=
  update_missing_subtask_error taskABC0 "zzz" .completed none rfl

end Superagent
